import Mathlib

/-
Verification development for the UDA-Hub multi-agent customer-support
orchestrator.  The definitions below are shallow embeddings of the
repository's Python source: the supervisor routing rule (workflow.py),
the resolver loop-continuation check (agents/resolver.py), the retriever
confidence rubric (agents/retriever.py), the escalation pass
(agents/escalation.py), and the Tool Gateway operations
(tools/ticket_tools.py, tools/cultpass_tools.py).
-/

set_option maxRecDepth 4000

-- ===========================================================================
-- Supervisor routing rule (workflow.py, SUPERVISOR_PROMPT lines 35-51)
-- ===========================================================================

/-- Urgency levels assigned by the classifier (classifier.py, ClassificationOutput.urgency). -/
inductive Urgency where
  | high
  | medium
  | low
deriving DecidableEq

/-- Target of the supervisor's post-retrieval routing decision. -/
inductive Route where
  | resolver
  | escalation
deriving DecidableEq

/-- High-urgency routing threshold of SUPERVISOR_PROMPT: 0.75. -/
def HIGH_THRESHOLD : ℚ := mkRat 75 100

/-- Medium/low-urgency routing threshold of SUPERVISOR_PROMPT: 0.60. -/
def NORMAL_THRESHOLD : ℚ := mkRat 60 100

/-- Routing rule encoded in SUPERVISOR_PROMPT (workflow.py):
high urgency requires confidence >= 0.75 to go to the resolver, otherwise
escalation; medium or low urgency requires confidence >= 0.60.  The rule is
applied by the supervisor model; these two thresholds are the prompt's hard
contract. -/
def route_decision (u : Urgency) (confidence : ℚ) : Route :=
  match u with
  | .high => if HIGH_THRESHOLD ≤ confidence then .resolver else .escalation
  | .medium => if NORMAL_THRESHOLD ≤ confidence then .resolver else .escalation
  | .low => if NORMAL_THRESHOLD ≤ confidence then .resolver else .escalation

-- ===========================================================================
-- Escalation sentinel detection (agents/resolver.py, _should_continue)
-- ===========================================================================

/-- Boolean test that the first list is a prefix of the second
(character-by-character). -/
def listIsPrefixOf : List Char → List Char → Bool
  | [], _ => true
  | _ :: _, [] => false
  | a :: as, b :: bs => a == b && listIsPrefixOf as bs

/-- Substring search on character lists: does `pat` occur contiguously in `s`?
Embeds the semantics of Python's `pat in s` on strings. -/
def listContains (pat : List Char) : List Char → Bool
  | [] => listIsPrefixOf pat []
  | c :: rest => listIsPrefixOf pat (c :: rest) || listContains pat rest

/-- Python's `pat in s` substring containment on strings. -/
def strContains (s pat : String) : Bool :=
  listContains pat.data s.data

/-- The escalation sentinel token (resolver.py prompt and _should_continue). -/
def NEEDS_ESCALATION : String := "NEEDS_ESCALATION"

/-- The sentinel-detection test in resolver.py `_should_continue`:
`if "NEEDS_ESCALATION" in content`. -/
def containsSentinel (content : String) : Bool :=
  strContains content NEEDS_ESCALATION

/-- Routing outcome of resolver.py `_should_continue`: continue to the tool
node, or end the resolver graph (END). -/
inductive ResolverNext where
  | tools
  | stop
deriving DecidableEq

/-- resolver.py `_should_continue`: the sentinel check runs first and returns
END; otherwise pending tool calls route to the tool node; otherwise END. -/
def should_continue (content : String) (hasToolCalls : Bool) : ResolverNext :=
  if containsSentinel content then .stop
  else if hasToolCalls then .tools
  else .stop

/-- One model response in the resolver loop: free-text content plus whether
the response carries pending tool-call requests. -/
structure LMsg where
  content : String
  hasToolCalls : Bool

/-- Number of tool-execution rounds the resolver graph performs when the
model produces the given sequence of responses: each round the conditional
edge `_should_continue` either sends the last message to the tool node
(one tool round, then the next response) or ends the graph. -/
def toolRounds : List LMsg → Nat
  | [] => 0
  | r :: rest =>
    match should_continue r.content r.hasToolCalls with
    | .tools => toolRounds rest + 1
    | .stop => 0

-- ===========================================================================
-- JSON-like result values returned by the Tool Gateway
-- ===========================================================================

/-- Value type of the Python dictionaries returned by the gateway tools. -/
inductive JVal where
  | str : String → JVal
  | int : Int → JVal
  | bool : Bool → JVal
  | null : JVal
  | arr : List JVal → JVal
  | obj : List (String × JVal) → JVal

/-- A tool result is a Python dict: an ordered association list. -/
abbrev ToolResult := List (String × JVal)

/-- Keys of a tool result, in order. -/
def keysOf (r : ToolResult) : List String :=
  r.map (fun p => p.1)

/-- Membership of a key in a tool result (Python `"k" in result`). -/
def hasKey (r : ToolResult) (k : String) : Bool :=
  r.any (fun p => p.1 == k)

/-- Value stored under a key, if present (first occurrence). -/
def getKey (r : ToolResult) (k : String) : Option JVal :=
  (r.find? (fun p => p.1 == k)).map (fun p => p.2)

/-- Embeds a nullable string column value (None ↦ null). -/
def optJ : Option String → JVal
  | none => .null
  | some s => .str s

-- ===========================================================================
-- UdaHub store model (the tables behind tools/ticket_tools.py)
-- ===========================================================================

/-- Row of the udahub User table (fields used by ticket_tools.py). -/
structure UdaUser where
  user_id : String
  external_user_id : String
  user_name : String
deriving DecidableEq

/-- Row of the udahub TicketMetadata table; nullable columns are Options. -/
structure UdaTicketMeta where
  status : Option String
  main_issue_type : Option String
  tags : Option String
deriving DecidableEq

/-- Row of the udahub TicketMessage table. -/
structure UdaMessageRow where
  message_id : String
  ticket_id : String
  role : Option String
  content : String
deriving DecidableEq

/-- Row of the udahub Ticket table; `created_at` is the stored timestamp
rendered in ISO format (isoformat is the identity on this model). -/
structure UdaTicket where
  ticket_id : String
  user_id : String
  channel : String
  created_at : Option String
deriving DecidableEq

/-- The udahub database: users, tickets, ticket metadata keyed by ticket id,
and ticket messages.  The ORM relationships of the source resolve to lookups
in these lists. -/
structure UdaStore where
  users : List UdaUser
  tickets : List UdaTicket
  metas : List (String × UdaTicketMeta)
  messages : List UdaMessageRow
deriving DecidableEq

/-- ORM relationship `ticket.ticket_metadata`: first metadata row keyed by
the ticket id (the query used by update_ticket_status). -/
def findMeta (st : UdaStore) (ticket_id : String) : Option UdaTicketMeta :=
  (st.metas.find? (fun p => p.1 == ticket_id)).map (fun p => p.2)

/-- ORM relationship `ticket.messages`: message rows of the ticket in
insertion order. -/
def ticketMessages (st : UdaStore) (ticket_id : String) : List UdaMessageRow :=
  st.messages.filter (fun m => m.ticket_id == ticket_id)

-- ===========================================================================
-- Python string primitives (split, strip, lower, sorted, join) modelled
-- structurally over character lists
-- ===========================================================================

/-- Python `s.split(",")` on the character list of `s`: cut at every comma,
keeping empty pieces. -/
def splitComma : List Char → List (List Char)
  | [] => [[]]
  | c :: rest =>
    let r := splitComma rest
    if c == ',' then [] :: r
    else
      match r with
      | [] => [[c]]
      | g :: gs => (c :: g) :: gs

/-- Whitespace characters removed by Python `str.strip()`. -/
def isPySpace (c : Char) : Bool :=
  c == ' ' || c == '\t' || c == '\n' || c == '\r'

/-- Python `str.strip()`: drop leading and trailing whitespace. -/
def stripChars (l : List Char) : List Char :=
  ((l.dropWhile isPySpace).reverse.dropWhile isPySpace).reverse

/-- Lexicographic code-point comparison, as Python `<` on strings. -/
def listLt : List Char → List Char → Bool
  | [], [] => false
  | [], _ :: _ => true
  | _ :: _, [] => false
  | a :: as, b :: bs => if a < b then true else if b < a then false else listLt as bs

/-- Insert into an ascending-sorted list under `listLt`. -/
def insertChars (x : List Char) : List (List Char) → List (List Char)
  | [] => [x]
  | y :: ys => if listLt y x then y :: insertChars x ys else x :: y :: ys

/-- Insertion sort in ascending code-point order: Python's `sorted`. -/
def sortChars : List (List Char) → List (List Char)
  | [] => []
  | x :: xs => insertChars x (sortChars xs)

/-- Python `", ".join(...)` over character-list pieces. -/
def joinCommaSpace : List (List Char) → List Char
  | [] => []
  | [g] => g
  | g :: gs => g ++ ',' :: ' ' :: joinCommaSpace gs

/-- ASCII lowering of one character (roles in this system are ASCII). -/
def lowerChar (c : Char) : Char :=
  if 'A' ≤ c && c ≤ 'Z' then Char.ofNat (c.toNat + 32) else c

/-- Python `str.lower()` restricted to ASCII. -/
def lowerStr (s : String) : String :=
  ⟨s.data.map lowerChar⟩

-- ===========================================================================
-- tools/ticket_tools.py
-- ===========================================================================

/-- get_ticket_info (ticket_tools.py lines 24-76): full ticket details, or
an error mapping when no ticket has the given id. -/
def get_ticket_info (st : UdaStore) (ticket_id : String) : ToolResult :=
  match st.tickets.find? (fun t => t.ticket_id == ticket_id) with
  | none => [("error", .str ("No ticket found with id: " ++ ticket_id))]
  | some t =>
    let meta := findMeta st t.ticket_id
    let user := st.users.find? (fun u => u.user_id == t.user_id)
    let msgs := (ticketMessages st t.ticket_id).map (fun m =>
      JVal.obj [("role", .str (m.role.getD "unknown")), ("content", .str m.content)])
    [ ("ticket_id", .str t.ticket_id)
    , ("channel", .str t.channel)
    , ("created_at", optJ t.created_at)
    , ("user", .str (match user with | some u => u.user_name | none => "unknown"))
    , ("status", match meta with | some m => optJ m.status | none => .null)
    , ("issue_type", match meta with | some m => optJ m.main_issue_type | none => .null)
    , ("tags", match meta with | some m => optJ m.tags | none => .null)
    , ("messages", .arr msgs) ]

/-- Python truthiness of a nullable string column (None and "" are falsy). -/
def optTruthy : Option String → Bool
  | none => false
  | some s => s != ""

/-- The tag-merge expression of update_ticket_status (ticket_tools.py lines
117-120): `existing = set(meta.tags.split(","))` (no strip),
`new_tags` from the argument split on "," and stripped, then
`", ".join(sorted(existing | new_tags))`; sets are modelled by `dedup`
followed by sorting. -/
def mergeTags (metaTags : String) (tags : String) : String :=
  let existing := if metaTags == "" then [] else splitComma metaTags.data
  let newTags := (splitComma tags.data).map stripChars
  ⟨joinCommaSpace (sortChars ((existing ++ newTags).dedup))⟩

/-- Mutation performed on the metadata row by update_ticket_status
(lines 112-120): status overwritten; issue type only when the argument is
truthy; tags merged only when the argument is truthy. -/
def applyMetaUpdate (m : UdaTicketMeta) (status issue_type tags : String) : UdaTicketMeta :=
  { status := some status
  , main_issue_type := if issue_type != "" then some issue_type else m.main_issue_type
  , tags := if tags != "" then some (mergeTags (if optTruthy m.tags then m.tags.getD "" else "") tags)
            else m.tags }

/-- Replace the first metadata row with the given ticket id (the `.first()`
row the session mutates). -/
def setFirstMeta : List (String × UdaTicketMeta) → String → UdaTicketMeta → List (String × UdaTicketMeta)
  | [], _, _ => []
  | p :: rest, tid, m1 => if p.1 == tid then (p.1, m1) :: rest else p :: setFirstMeta rest tid m1

/-- update_ticket_status (ticket_tools.py lines 79-133): looks up the
metadata row by ticket id; missing row yields an error mapping; otherwise
the row is updated in place and the updated fields are returned. -/
def update_ticket_status (st : UdaStore) (ticket_id status issue_type tags : String) :
    UdaStore × ToolResult :=
  match findMeta st ticket_id with
  | none => (st, [("error", .str ("No ticket metadata found for ticket_id: " ++ ticket_id))])
  | some m =>
    let m1 := applyMetaUpdate m status issue_type tags
    let st1 := { st with metas := setFirstMeta st.metas ticket_id m1 }
    (st1, [ ("ticket_id", .str ticket_id)
          , ("status", optJ m1.status)
          , ("issue_type", optJ m1.main_issue_type)
          , ("tags", optJ m1.tags) ])

/-- Role normalization of add_ticket_message (ticket_tools.py lines 158-160):
lowercase, then any value outside agent/user/system becomes "agent". -/
def normalizeRole (role : String) : String :=
  let rl := lowerStr role
  if rl == "agent" || rl == "user" || rl == "system" then rl else "agent"

/-- add_ticket_message (ticket_tools.py lines 136-183): normalizes the role,
generates a fresh message id (passed explicitly here), inserts the row —
with no check that the ticket exists — and returns a confirmation mapping. -/
def add_ticket_message (st : UdaStore) (ticket_id content role fresh_id : String) :
    UdaStore × ToolResult :=
  let rl := normalizeRole role
  let row : UdaMessageRow := { message_id := fresh_id, ticket_id := ticket_id
                             , role := some rl, content := content }
  ( { st with messages := st.messages ++ [row] }
  , [ ("ticket_id", .str ticket_id)
    , ("role", .str rl)
    , ("message_id", .str fresh_id) ] )

/-- Sort tickets most-recent-first (order_by created_at desc) and keep the
first `limit` of them. -/
def recentTickets (ts : List UdaTicket) (limit : Nat) : List UdaTicket :=
  let le := fun (a b : UdaTicket) => !listLt (a.created_at.getD "").data (b.created_at.getD "").data
  let rec ins (x : UdaTicket) : List UdaTicket → List UdaTicket
    | [] => [x]
    | y :: ys => if le x y then x :: y :: ys else y :: ins x ys
  let rec srt : List UdaTicket → List UdaTicket
    | [] => []
    | x :: xs => ins x (srt xs)
  (srt ts).take limit

/-- get_customer_ticket_history (ticket_tools.py lines 186-266): when no
user carries the external id, returns a non-error payload with a message
field and zero tickets; otherwise returns the most recent tickets with
their metadata and each ticket's last ai-role message. -/
def get_customer_ticket_history (st : UdaStore) (external_user_id : String) (limit : Nat) :
    ToolResult :=
  match st.users.find? (fun u => u.external_user_id == external_user_id) with
  | none =>
    [ ("external_user_id", .str external_user_id)
    , ("total_tickets", .int 0)
    , ("tickets", .arr [])
    , ("message", .str "No UdaHub account found for this external user ID.") ]
  | some u =>
    let ts := recentTickets (st.tickets.filter (fun t => t.user_id == u.user_id)) limit
    let history := ts.map (fun t =>
      let meta := findMeta st t.ticket_id
      let aiMsgs := (ticketMessages st t.ticket_id).filter (fun m => m.role == some "ai")
      JVal.obj
        [ ("ticket_id", .str t.ticket_id)
        , ("created_at", optJ t.created_at)
        , ("channel", .str t.channel)
        , ("status", match meta with | some m => optJ m.status | none => .null)
        , ("issue_type", match meta with | some m => optJ m.main_issue_type | none => .null)
        , ("tags", match meta with | some m => optJ m.tags | none => .null)
        , ("last_ai_message", match aiMsgs.getLast? with | some m => .str m.content | none => .null) ])
    [ ("external_user_id", .str external_user_id)
    , ("user_name", .str u.user_name)
    , ("total_tickets", .int history.length)
    , ("tickets", .arr history) ]

-- ===========================================================================
-- CultPass store model (the tables behind tools/cultpass_tools.py)
-- ===========================================================================

/-- Row of the cultpass Subscription table. -/
structure CultSubscription where
  status : String
  tier : String
  started_at : String
  ended_at : Option String
deriving DecidableEq

/-- Row of the cultpass Experience table. -/
structure CultExperience where
  experience_id : String
  title : String
  location : String
  whenAt : Option String
  is_premium : Bool
  slots_available : Int
deriving DecidableEq

/-- Row of the cultpass Reservation table, with its experience relationship
resolved inline. -/
structure CultReservation where
  experience : Option CultExperience
  status : String
deriving DecidableEq

/-- Row of the cultpass User table, with relationships resolved inline. -/
structure CultUser where
  user_id : String
  full_name : String
  email : String
  is_blocked : Bool
  subscription : Option CultSubscription
  reservations : List CultReservation
deriving DecidableEq

/-- The cultpass database. -/
structure CultStore where
  users : List CultUser
  experiences : List CultExperience
deriving DecidableEq

-- ===========================================================================
-- tools/cultpass_tools.py
-- ===========================================================================

/-- get_user_general_info (cultpass_tools.py lines 23-61): profile payload,
or an error mapping when no user has the given id. -/
def get_user_general_info (st : CultStore) (user_id : String) : ToolResult :=
  match st.users.find? (fun u => u.user_id == user_id) with
  | none => [("error", .str ("No CultPass user found with id: " ++ user_id))]
  | some u =>
    [ ("user_id", .str u.user_id)
    , ("name", .str u.full_name)
    , ("email", .str u.email)
    , ("account_status", .str (if u.is_blocked then "BLOCKED" else "ACTIVE")) ]

/-- get_user_subscription (cultpass_tools.py lines 64-106): subscription
payload; an error mapping when the user is missing or has no subscription. -/
def get_user_subscription (st : CultStore) (user_id : String) : ToolResult :=
  match st.users.find? (fun u => u.user_id == user_id) with
  | none => [("error", .str ("No CultPass user found with id: " ++ user_id))]
  | some u =>
    match u.subscription with
    | some sub =>
      [ ("user_id", .str user_id)
      , ("subscription_status", .str sub.status)
      , ("subscription_tier", .str sub.tier)
      , ("subscription_started_at", .str sub.started_at)
      , ("subscription_ended_at", optJ sub.ended_at) ]
    | none => [("error", .str ("User " ++ user_id ++ " has no active subscription."))]

/-- get_user_reservations (cultpass_tools.py lines 109-156): reservation
payload; an error mapping when the user is missing or has no reservations. -/
def get_user_reservations (st : CultStore) (user_id : String) : ToolResult :=
  match st.users.find? (fun u => u.user_id == user_id) with
  | none => [("error", .str ("No CultPass user found with id: " ++ user_id))]
  | some u =>
    if u.reservations.isEmpty then
      [("error", .str ("User " ++ user_id ++ " has no reservations."))]
    else
      let rs := u.reservations.map (fun r =>
        JVal.obj
          [ ("experience_title", .str (match r.experience with | some e => e.title | none => "N/A"))
          , ("experience_location", .str (match r.experience with | some e => e.location | none => "N/A"))
          , ("experience_time", .str (match r.experience with
              | some e => match e.whenAt with | some w => w | none => "N/A"
              | none => "N/A"))
          , ("experience_is_premium", .bool (match r.experience with | some e => e.is_premium | none => false))
          , ("reservation_status", .str r.status) ])
      [("user_id", .str user_id), ("reservations", .arr rs)]

/-- get_experience_availability (cultpass_tools.py lines 204-241):
experience payload; an error mapping when no experience has the given id. -/
def get_experience_availability (st : CultStore) (experience_id : String) : ToolResult :=
  match st.experiences.find? (fun e => e.experience_id == experience_id) with
  | none => [("error", .str ("No experience found with ID: " ++ experience_id))]
  | some e =>
    [ ("experience_title", .str e.title)
    , ("experience_location", .str e.location)
    , ("experience_time", .str (match e.whenAt with | some w => w | none => "N/A"))
    , ("experience_is_premium", .bool e.is_premium)
    , ("slots_available", .int e.slots_available) ]

-- ===========================================================================
-- Retriever confidence bands (agents/retriever.py, RetrieverOutput and the
-- rubric of RETRIEVER_SEARCH_PROMPT / RETRIEVER_EXTRACT_PROMPT)
-- ===========================================================================

/-- The four named confidence bands of the retrieval rubric. -/
inductive Band where
  | fullyAddresses
  | partlyAddresses
  | tangential
  | noMatch
deriving DecidableEq

/-- Lower boundary 0.80 of the top band. -/
def BAND_FULL : ℚ := mkRat 80 100

/-- Lower boundary 0.60 of the second band. -/
def BAND_PART : ℚ := mkRat 60 100

/-- Lower boundary 0.40 of the third band. -/
def BAND_TANG : ℚ := mkRat 40 100

/-- Band assignment of the rubric (retriever.py): 0.8-1.0 fully addresses,
0.6-0.79 partially, 0.4-0.59 tangentially, 0.0-0.39 none; the listed upper
bounds 0.79/0.59/0.39 are read as "strictly below the next band's lower
boundary", which is the only total reading of the cascade. -/
def bandOf (c : ℚ) : Band :=
  if BAND_FULL ≤ c then .fullyAddresses
  else if BAND_PART ≤ c then .partlyAddresses
  else if BAND_TANG ≤ c then .tangential
  else .noMatch

/-- Membership in the named band "0.8 - 1.0: fully addresses". -/
def inFullBand (c : ℚ) : Prop := BAND_FULL ≤ c ∧ c ≤ 1

/-- Membership in the named band "0.6 - 0.79: partially answers". -/
def inPartBand (c : ℚ) : Prop := BAND_PART ≤ c ∧ c < BAND_FULL

/-- Membership in the named band "0.4 - 0.59: tangential". -/
def inTangBand (c : ℚ) : Prop := BAND_TANG ≤ c ∧ c < BAND_PART

/-- Membership in the named band "0.0 - 0.39: none". -/
def inNoneBand (c : ℚ) : Prop := 0 ≤ c ∧ c < BAND_TANG

-- ===========================================================================
-- Agent tool bindings (resolver.py RESOLVER_TOOLS, escalation.py
-- ESCALATION_TOOLS, and the gateway modules)
-- ===========================================================================

/-- Names of the Tool Gateway operations referenced anywhere in the agents. -/
inductive ToolName where
  | get_ticket_info
  | update_ticket_status
  | add_ticket_message
  | get_customer_ticket_history
  | get_user_preferences
  | update_user_preferences
  | get_cultpass_user_info
  | get_user_general_info
  | get_user_subscription
  | get_user_reservations
  | search_experiences_by_keyword
  | get_experience_availability
  | search_knowledge_base
deriving DecidableEq

/-- Modelled from the spec: the gateway operations "fetch/update stored user
preferences" and the account/subscription-facts operation
`get_cultpass_user_info` are imported by resolver.py and escalation.py from
the gateway modules, but their defining bodies are not present under src/;
spec section 4.1 lists them among the Tool Gateway operations, so they are
included in the set of defined gateway operations. -/
def specModelledGatewayOps : List ToolName :=
  [ .get_user_preferences, .update_user_preferences, .get_cultpass_user_info ]

/-- All defined Tool Gateway operations: the tools defined in
ticket_tools.py, cultpass_tools.py and knowledge_tools.py, together with the
spec-modelled preference and account-info operations. -/
def definedGatewayOps : List ToolName :=
  [ .get_ticket_info, .update_ticket_status, .add_ticket_message
  , .get_customer_ticket_history
  , .get_user_general_info, .get_user_subscription, .get_user_reservations
  , .search_experiences_by_keyword, .get_experience_availability
  , .search_knowledge_base ] ++ specModelledGatewayOps

/-- RESOLVER_TOOLS (resolver.py lines 41-51): the tool set bound by the
Resolver agent, in source order. -/
def RESOLVER_TOOLS : List ToolName :=
  [ .get_ticket_info
  , .update_ticket_status
  , .add_ticket_message
  , .get_customer_ticket_history
  , .get_user_preferences
  , .update_user_preferences
  , .get_cultpass_user_info
  , .get_user_reservations
  , .get_experience_availability ]

-- ===========================================================================
-- Escalation pass (agents/escalation.py, ESCALATION_SYSTEM_PROMPT)
-- ===========================================================================

/-- Role the escalation prompt instructs for the internal structured note
(step 4: role='system'). -/
def ESCALATION_NOTE_ROLE : String := "system"

/-- Role the escalation prompt instructs for the customer-facing closing
message (step 6: role='ai'). -/
def ESCALATION_CUSTOMER_ROLE : String := "ai"

/-- Status the escalation prompt instructs (step 6: status='escalated'). -/
def ESCALATION_STATUS : String := "escalated"

/-- The tool-call sequence the escalation prompt instructs in one pass:
append the internal note (role 'system'), append the customer-facing
message (role 'ai'), and update the ticket status to 'escalated'; the roles
pass through add_ticket_message's normalization. -/
def escalationPass (st : UdaStore) (ticket_id note customerMsg id1 id2 : String) : UdaStore :=
  let st1 := (add_ticket_message st ticket_id note ESCALATION_NOTE_ROLE id1).1
  let st2 := (add_ticket_message st1 ticket_id customerMsg ESCALATION_CUSTOMER_ROLE id2).1
  (update_ticket_status st2 ticket_id ESCALATION_STATUS "" "").1

-- ===========================================================================
-- Sample store rows used by concrete evaluations
-- ===========================================================================

/-- A metadata row whose tags were written in the gateway's own ", "-joined
format. -/
def tagTicketMeta : UdaTicketMeta :=
  { status := some "open", main_issue_type := some "subscription", tags := some "a, b" }

/-- A one-ticket udahub store carrying `tagTicketMeta`. -/
def tagStore : UdaStore :=
  { users := []
  , tickets := [{ ticket_id := "T-1", user_id := "u-1", channel := "chat", created_at := some "2024-01-01T00:00:00" }]
  , metas := [("T-1", tagTicketMeta)]
  , messages := [] }

-- ===========================================================================
-- Helper lemmas
-- ===========================================================================

theorem routeIte_resolver (t c : ℚ) :
    (if t ≤ c then Route.resolver else Route.escalation) = Route.resolver ↔ t ≤ c := by
  split_ifs with h
  · simp [h]
  · simp [h]

theorem routeIte_escalation (t c : ℚ) :
    (if t ≤ c then Route.resolver else Route.escalation) = Route.escalation ↔ c < t := by
  split_ifs with h
  · simp [not_lt.mpr h]
  · simp [not_le.mp h]

theorem listIsPrefixOf_append (p s : List Char) : listIsPrefixOf p (p ++ s) = true := by
  induction p with
  | nil => rfl
  | cons a as ih => simp [listIsPrefixOf, ih]

theorem listContains_of_isPre (pat s : List Char) (h : listIsPrefixOf pat s = true) :
    listContains pat s = true := by
  cases s with
  | nil => simpa [listContains] using h
  | cons c rest => simp [listContains, h]

theorem listContains_append (pre pat post : List Char) :
    listContains pat (pre ++ (pat ++ post)) = true := by
  induction pre with
  | nil => exact listContains_of_isPre _ _ (listIsPrefixOf_append pat post)
  | cons c cs ih => simp [listContains, ih]

theorem find_setFirstMeta (l : List (String × UdaTicketMeta)) (tid : String) (m1 : UdaTicketMeta) :
    (setFirstMeta l tid m1).find? (fun p => p.1 == tid) =
      (l.find? (fun p => p.1 == tid)).map (fun p => (p.1, m1)) := by
  induction l with
  | nil => rfl
  | cons p rest ih =>
    by_cases h : (p.1 == tid) = true
    · simp [setFirstMeta, h, List.find?]
    · simp only [setFirstMeta, h, if_false, Bool.false_eq_true]
      rw [List.find?_cons_of_neg _ (by simpa using h), List.find?_cons_of_neg _ (by simpa using h)]
      exact ih

theorem findMeta_update (st : UdaStore) (tid s it tg : String) (m : UdaTicketMeta)
    (h : findMeta st tid = some m) :
    findMeta (update_ticket_status st tid s it tg).1 tid = some (applyMetaUpdate m s it tg) := by
  simp only [update_ticket_status, h]
  unfold findMeta
  rw [find_setFirstMeta]
  unfold findMeta at h
  rcases hf : st.metas.find? (fun p => p.1 == tid) with _ | p
  · rw [hf] at h; simp at h
  · rw [hf] at h
    simp at h
    simp [hf]

theorem update_messages_frame (st : UdaStore) (tid s it tg : String) :
    (update_ticket_status st tid s it tg).1.messages = st.messages := by
  unfold update_ticket_status
  rcases hf : findMeta st tid with _ | m <;> simp [hf]

-- ===========================================================================
-- Claims
-- ===========================================================================

/-- Claim C1: after retrieval, high urgency routes to the resolver exactly
when confidence >= 0.75 and to escalation otherwise; medium and low urgency
route to the resolver exactly when confidence >= 0.60 and to escalation
otherwise; the boundary values 0.75 and 0.60 route to the resolver
(thresholds are inclusive). -/
theorem C1_routing_thresholds (c : ℚ) :
    HIGH_THRESHOLD = (0.75 : ℚ) ∧
    NORMAL_THRESHOLD = (0.60 : ℚ) ∧
    (route_decision .high c = .resolver ↔ HIGH_THRESHOLD ≤ c) ∧
    (route_decision .high c = .escalation ↔ c < HIGH_THRESHOLD) ∧
    (route_decision .medium c = .resolver ↔ NORMAL_THRESHOLD ≤ c) ∧
    (route_decision .medium c = .escalation ↔ c < NORMAL_THRESHOLD) ∧
    (route_decision .low c = .resolver ↔ NORMAL_THRESHOLD ≤ c) ∧
    (route_decision .low c = .escalation ↔ c < NORMAL_THRESHOLD) ∧
    route_decision .high HIGH_THRESHOLD = .resolver ∧
    route_decision .medium NORMAL_THRESHOLD = .resolver ∧
    route_decision .low NORMAL_THRESHOLD = .resolver :=
  ⟨ by norm_num [HIGH_THRESHOLD, Rat.mkRat_eq_div]
  , by norm_num [NORMAL_THRESHOLD, Rat.mkRat_eq_div]
  , routeIte_resolver HIGH_THRESHOLD c
  , routeIte_escalation HIGH_THRESHOLD c
  , routeIte_resolver NORMAL_THRESHOLD c
  , routeIte_escalation NORMAL_THRESHOLD c
  , routeIte_resolver NORMAL_THRESHOLD c
  , routeIte_escalation NORMAL_THRESHOLD c
  , by decide
  , by decide
  , by decide ⟩

/-- Claim C2 is false on the code: detection in resolver.py
`_should_continue` is substring containment (`"NEEDS_ESCALATION" in
content`), so a final message that merely contains the token inside
additional text IS detected, contradicting "recognized only when the
content is exactly the sentinel". -/
theorem C2_counterexample :
    containsSentinel "I cannot resolve this. NEEDS_ESCALATION" = true ∧
    "I cannot resolve this. NEEDS_ESCALATION" ≠ NEEDS_ESCALATION := by
  exact ⟨by decide, by decide⟩

/-- Claim C2 (amended): the escalation signal is recognized whenever the
final message content contains the sentinel token as a substring — in
particular every decorated variant is detected — and the exact undecorated
token is detected as well; exact-match-only recognition is a prompt
contract, not a property of the detection code. -/
theorem C2_substring_detection (pre post : String) :
    containsSentinel (pre ++ NEEDS_ESCALATION ++ post) = true ∧
    containsSentinel NEEDS_ESCALATION = true := by
  constructor
  · unfold containsSentinel strContains
    have hd : (pre ++ NEEDS_ESCALATION ++ post).data =
        pre.data ++ (NEEDS_ESCALATION.data ++ post.data) := by
      simp [String.data_append]
    rw [hd]
    exact listContains_append _ _ _
  · decide

/-- Claim C3: whenever the resolver's last message content carries the
escalation sentinel, `_should_continue` returns END regardless of pending
tool-call requests (the sentinel check precedes the tool-call check), and
the resolver loop executes zero further tool rounds in that turn. -/
theorem C3_sentinel_halts_loop (content : String) (hasToolCalls : Bool) (rest : List LMsg)
    (h : containsSentinel content = true) :
    should_continue content hasToolCalls = .stop ∧
    toolRounds ({ content := content, hasToolCalls := hasToolCalls } :: rest) = 0 := by
  have hs : should_continue content hasToolCalls = .stop := by
    unfold should_continue
    rw [if_pos h]
  exact ⟨hs, by simp [toolRounds, hs]⟩

/-- Witness for C3 at a concrete state: the sentinel with a pending
tool-call request and a nonempty continuation halts with zero tool rounds. -/
theorem C3_witness :
    containsSentinel "NEEDS_ESCALATION" = true ∧
    (should_continue "NEEDS_ESCALATION" true = .stop ∧
     toolRounds ({ content := "NEEDS_ESCALATION", hasToolCalls := true } ::
       [{ content := "more", hasToolCalls := true }]) = 0) :=
  ⟨by decide, C3_sentinel_halts_loop "NEEDS_ESCALATION" true
      [{ content := "more", hasToolCalls := true }] (by decide)⟩

/-- Claim C4 is false on the code: get_customer_ticket_history invoked with
a nonexistent external user id returns a payload WITHOUT an `error` key and
WITH domain fields (external_user_id, total_tickets, tickets, message). -/
theorem C4_counterexample :
    hasKey (get_customer_ticket_history ⟨[], [], [], []⟩ "nobody" 5) "error" = false ∧
    keysOf (get_customer_ticket_history ⟨[], [], [], []⟩ "nobody" 5) =
      ["external_user_id", "total_tickets", "tickets", "message"] := by
  exact ⟨by decide, by decide⟩

/-- Claim C4 (amended): every gateway operation that checks its id
(get_ticket_info, update_ticket_status, get_user_general_info,
get_user_subscription, get_user_reservations, get_experience_availability)
returns, on a nonexistent id, a mapping whose only key is `error` (and
update_ticket_status leaves the store unchanged); every outcome is a
returned mapping, never an exception.  Two operations deviate:
get_customer_ticket_history on a nonexistent external user id returns a
non-error payload with a `message` field, and add_ticket_message performs
no ticket-existence check, returning a success payload for any ticket id. -/
theorem C4_gateway_nonexistent_ids :
    (∀ st tid, st.tickets.find? (fun t => t.ticket_id == tid) = none →
        keysOf (get_ticket_info st tid) = ["error"]) ∧
    (∀ st tid s it tg, findMeta st tid = none →
        (update_ticket_status st tid s it tg).1 = st ∧
        keysOf (update_ticket_status st tid s it tg).2 = ["error"]) ∧
    (∀ cst uid, cst.users.find? (fun u => u.user_id == uid) = none →
        keysOf (get_user_general_info cst uid) = ["error"] ∧
        keysOf (get_user_subscription cst uid) = ["error"] ∧
        keysOf (get_user_reservations cst uid) = ["error"]) ∧
    (∀ cst eid, cst.experiences.find? (fun e => e.experience_id == eid) = none →
        keysOf (get_experience_availability cst eid) = ["error"]) ∧
    (∀ st euid lim, st.users.find? (fun u => u.external_user_id == euid) = none →
        hasKey (get_customer_ticket_history st euid lim) "error" = false ∧
        keysOf (get_customer_ticket_history st euid lim) =
          ["external_user_id", "total_tickets", "tickets", "message"]) ∧
    (∀ st tid content role fid,
        keysOf (add_ticket_message st tid content role fid).2 =
          ["ticket_id", "role", "message_id"]) := by
  refine ⟨?_, ?_, ?_, ?_, ?_, ?_⟩
  · intro st tid h
    simp [get_ticket_info, h, keysOf]
  · intro st tid s it tg h
    simp [update_ticket_status, h, keysOf]
  · intro cst uid h
    refine ⟨?_, ?_, ?_⟩ <;>
      simp [get_user_general_info, get_user_subscription, get_user_reservations, h, keysOf]
  · intro cst eid h
    simp [get_experience_availability, h, keysOf]
  · intro st euid lim h
    exact ⟨by simp [get_customer_ticket_history, h, hasKey],
           by simp [get_customer_ticket_history, h, keysOf]⟩
  · intro st tid content role fid
    simp [add_ticket_message, keysOf]

/-- Witness for the amended C4 at concrete empty stores and fresh ids. -/
theorem C4_witness :
    keysOf (get_ticket_info ⟨[], [], [], []⟩ "T-404") = ["error"] ∧
    keysOf (update_ticket_status ⟨[], [], [], []⟩ "T-404" "open" "" "").2 = ["error"] ∧
    keysOf (get_user_general_info ⟨[], []⟩ "u-404") = ["error"] ∧
    keysOf (get_user_subscription ⟨[], []⟩ "u-404") = ["error"] ∧
    keysOf (get_experience_availability ⟨[], []⟩ "e-404") = ["error"] ∧
    hasKey (get_customer_ticket_history ⟨[], [], [], []⟩ "x-404" 5) "error" = false ∧
    keysOf (add_ticket_message ⟨[], [], [], []⟩ "T-404" "hi" "agent" "m-1").2 =
      ["ticket_id", "role", "message_id"] :=
  ⟨ C4_gateway_nonexistent_ids.1 ⟨[], [], [], []⟩ "T-404" (by decide)
  , (C4_gateway_nonexistent_ids.2.1 ⟨[], [], [], []⟩ "T-404" "open" "" "" (by decide)).2
  , (C4_gateway_nonexistent_ids.2.2.1 ⟨[], []⟩ "u-404" (by decide)).1
  , (C4_gateway_nonexistent_ids.2.2.1 ⟨[], []⟩ "u-404" (by decide)).2.1
  , C4_gateway_nonexistent_ids.2.2.2.1 ⟨[], []⟩ "e-404" (by decide)
  , (C4_gateway_nonexistent_ids.2.2.2.2.1 ⟨[], [], [], []⟩ "x-404" 5 (by decide)).1
  , C4_gateway_nonexistent_ids.2.2.2.2.2 ⟨[], [], [], []⟩ "T-404" "hi" "agent" "m-1" ⟩

/-- Claim C5 is right about intent and the code has a bug: the merge splits
the persisted tags on "," WITHOUT stripping, yet persists them joined with
", ", so re-updating a ticket with a tag set the gateway itself persisted
changes the stored tags — idempotence fails.  Evaluated at the failing
input: persisted tags "a, b", update with tags "a, b" yields " b, a, b". -/
theorem C5_tag_update_not_idempotent :
    mergeTags "a, b" "a, b" = " b, a, b" ∧
    findMeta (update_ticket_status tagStore "T-1" "open" "" "a, b").1 "T-1" =
      some { status := some "open", main_issue_type := some "subscription"
           , tags := some " b, a, b" } ∧
    some (" b, a, b" : String) ≠ some ("a, b" : String) := by
  exact ⟨by decide, by decide, by decide⟩

/-- Claim C6: a role outside the recognized set silently normalizes to
"agent"; the message is persisted with that role and the returned mapping
reports role "agent" with no error key. -/
theorem C6_role_normalization (st : UdaStore) (tid content role fid : String)
    (h : lowerStr role ≠ "agent" ∧ lowerStr role ≠ "user" ∧ lowerStr role ≠ "system") :
    normalizeRole role = "agent" ∧
    (add_ticket_message st tid content role fid).1.messages =
      st.messages ++ [{ message_id := fid, ticket_id := tid
                      , role := some "agent", content := content }] ∧
    getKey (add_ticket_message st tid content role fid).2 "role" = some (.str "agent") ∧
    hasKey (add_ticket_message st tid content role fid).2 "error" = false := by
  have h1 : (lowerStr role == "agent") = false := by simp [h.1]
  have h2 : (lowerStr role == "user") = false := by simp [h.2.1]
  have h3 : (lowerStr role == "system") = false := by simp [h.2.2]
  have hn : normalizeRole role = "agent" := by
    simp [normalizeRole, h1, h2, h3]
  refine ⟨hn, ?_, ?_, ?_⟩
  · simp [add_ticket_message, hn]
  · simp [add_ticket_message, hn, getKey]
  · simp [add_ticket_message, hasKey]

/-- Witness for C6 at the concrete unrecognized role "ai". -/
theorem C6_witness :
    (lowerStr "ai" ≠ "agent" ∧ lowerStr "ai" ≠ "user" ∧ lowerStr "ai" ≠ "system") ∧
    (normalizeRole "ai" = "agent" ∧
     (add_ticket_message ⟨[], [], [], []⟩ "T-1" "hello" "ai" "m-1").1.messages =
       [] ++ [{ message_id := "m-1", ticket_id := "T-1"
              , role := some "agent", content := "hello" }] ∧
     getKey (add_ticket_message ⟨[], [], [], []⟩ "T-1" "hello" "ai" "m-1").2 "role" =
       some (.str "agent") ∧
     hasKey (add_ticket_message ⟨[], [], [], []⟩ "T-1" "hello" "ai" "m-1").2 "error" = false) :=
  ⟨by refine ⟨?_, ?_, ?_⟩ <;> decide,
   C6_role_normalization ⟨[], [], [], []⟩ "T-1" "hello" "ai" "m-1"
     ⟨by decide, by decide, by decide⟩⟩

theorem bandOf_eq_full_iff (c : ℚ) (h1 : c ≤ 1) :
    bandOf c = .fullyAddresses ↔ inFullBand c := by
  unfold bandOf inFullBand
  split_ifs with hA hB hC
  · simp [hA, h1]
  · simp [hA]
  · simp [hA]
  · simp [hA]

theorem bandOf_eq_part_iff (c : ℚ) :
    bandOf c = .partlyAddresses ↔ inPartBand c := by
  unfold bandOf inPartBand
  split_ifs with hA hB hC
  · simp [not_lt.mpr hA]
  · simp [hB, not_le.mp hA]
  · simp [hB]
  · simp [hB]

theorem bandOf_eq_tang_iff (c : ℚ) :
    bandOf c = .tangential ↔ inTangBand c := by
  have hfp : BAND_PART < BAND_FULL := by
    norm_num [BAND_PART, BAND_FULL, Rat.mkRat_eq_div]
  unfold bandOf inTangBand
  split_ifs with hA hB hC
  · simp [not_lt.mpr (le_trans hfp.le hA)]
  · simp [not_lt.mpr hB]
  · simp [hC, not_le.mp hB]
  · simp [hC]

theorem bandOf_eq_none_iff (c : ℚ) (h0 : 0 ≤ c) :
    bandOf c = .noMatch ↔ inNoneBand c := by
  have hfp : BAND_PART < BAND_FULL := by
    norm_num [BAND_PART, BAND_FULL, Rat.mkRat_eq_div]
  have htp : BAND_TANG < BAND_PART := by
    norm_num [BAND_TANG, BAND_PART, Rat.mkRat_eq_div]
  unfold bandOf inNoneBand
  split_ifs with hA hB hC
  · simp [not_lt.mpr (le_trans (htp.trans hfp).le hA)]
  · simp [not_lt.mpr (le_trans htp.le hB)]
  · simp [not_lt.mpr hC]
  · simp [h0, not_le.mp hC]

theorem band_coverage (c : ℚ) (h0 : 0 ≤ c) (h1 : c ≤ 1) :
    inFullBand c ∨ inPartBand c ∨ inTangBand c ∨ inNoneBand c := by
  unfold inFullBand inPartBand inTangBand inNoneBand
  rcases le_or_lt BAND_FULL c with hA | hA
  · exact Or.inl ⟨hA, h1⟩
  rcases le_or_lt BAND_PART c with hB | hB
  · exact Or.inr (Or.inl ⟨hB, hA⟩)
  rcases le_or_lt BAND_TANG c with hC | hC
  · exact Or.inr (Or.inr (Or.inl ⟨hC, hB⟩))
  · exact Or.inr (Or.inr (Or.inr ⟨h0, hC⟩))

/-- Claim C7: the four retrieval confidence bands (>=0.80 fully addresses,
0.60-0.79 partially, 0.40-0.59 tangential, <0.40 none) partition [0,1]:
every score in [0,1] lies in exactly one band (coverage and pairwise
disjointness), the band boundaries are exactly 0.8 / 0.6 / 0.4, and the
band-assignment cascade of the rubric realizes exactly these bands, with
each lower boundary belonging to its own band (inclusive). -/
theorem C7_confidence_bands (c : ℚ) (h0 : 0 ≤ c) (h1 : c ≤ 1) :
    BAND_FULL = (0.8 : ℚ) ∧ BAND_PART = (0.6 : ℚ) ∧ BAND_TANG = (0.4 : ℚ) ∧
    (bandOf c = .fullyAddresses ↔ inFullBand c) ∧
    (bandOf c = .partlyAddresses ↔ inPartBand c) ∧
    (bandOf c = .tangential ↔ inTangBand c) ∧
    (bandOf c = .noMatch ↔ inNoneBand c) ∧
    (inFullBand c ∨ inPartBand c ∨ inTangBand c ∨ inNoneBand c) ∧
    ¬ (inFullBand c ∧ inPartBand c) ∧ ¬ (inFullBand c ∧ inTangBand c) ∧
    ¬ (inFullBand c ∧ inNoneBand c) ∧ ¬ (inPartBand c ∧ inTangBand c) ∧
    ¬ (inPartBand c ∧ inNoneBand c) ∧ ¬ (inTangBand c ∧ inNoneBand c) ∧
    bandOf BAND_FULL = .fullyAddresses ∧
    bandOf BAND_PART = .partlyAddresses ∧
    bandOf BAND_TANG = .tangential := by
  have hfp : BAND_PART < BAND_FULL := by
    norm_num [BAND_PART, BAND_FULL, Rat.mkRat_eq_div]
  have htp : BAND_TANG < BAND_PART := by
    norm_num [BAND_TANG, BAND_PART, Rat.mkRat_eq_div]
  refine ⟨by norm_num [BAND_FULL, Rat.mkRat_eq_div],
    by norm_num [BAND_PART, Rat.mkRat_eq_div],
    by norm_num [BAND_TANG, Rat.mkRat_eq_div],
    bandOf_eq_full_iff c h1, bandOf_eq_part_iff c, bandOf_eq_tang_iff c,
    bandOf_eq_none_iff c h0, band_coverage c h0 h1, ?_, ?_, ?_, ?_, ?_, ?_,
    by decide, by decide, by decide⟩ <;>
  · rintro ⟨⟨xa, xb⟩, ⟨ya, yb⟩⟩
    linarith

/-- Witness for C7 at the concrete score 0.7. -/
theorem C7_witness :
    (0 ≤ mkRat 7 10 ∧ mkRat 7 10 ≤ 1) ∧
    (BAND_FULL = (0.8 : ℚ) ∧ BAND_PART = (0.6 : ℚ) ∧ BAND_TANG = (0.4 : ℚ) ∧
     (bandOf (mkRat 7 10) = .fullyAddresses ↔ inFullBand (mkRat 7 10)) ∧
     (bandOf (mkRat 7 10) = .partlyAddresses ↔ inPartBand (mkRat 7 10)) ∧
     (bandOf (mkRat 7 10) = .tangential ↔ inTangBand (mkRat 7 10)) ∧
     (bandOf (mkRat 7 10) = .noMatch ↔ inNoneBand (mkRat 7 10)) ∧
     (inFullBand (mkRat 7 10) ∨ inPartBand (mkRat 7 10) ∨ inTangBand (mkRat 7 10) ∨
       inNoneBand (mkRat 7 10)) ∧
     ¬ (inFullBand (mkRat 7 10) ∧ inPartBand (mkRat 7 10)) ∧
     ¬ (inFullBand (mkRat 7 10) ∧ inTangBand (mkRat 7 10)) ∧
     ¬ (inFullBand (mkRat 7 10) ∧ inNoneBand (mkRat 7 10)) ∧
     ¬ (inPartBand (mkRat 7 10) ∧ inTangBand (mkRat 7 10)) ∧
     ¬ (inPartBand (mkRat 7 10) ∧ inNoneBand (mkRat 7 10)) ∧
     ¬ (inTangBand (mkRat 7 10) ∧ inNoneBand (mkRat 7 10)) ∧
     bandOf BAND_FULL = .fullyAddresses ∧
     bandOf BAND_PART = .partlyAddresses ∧
     bandOf BAND_TANG = .tangential) :=
  ⟨⟨by decide, by decide⟩, C7_confidence_bands (mkRat 7 10) (by decide) (by decide)⟩

/-- Claim C8: the Resolver agent's bound tool set contains the preference
fetch/update operations together with the ticket, history and
account/subscription/reservation/availability tools, and every bound tool
is a defined Tool Gateway operation (the preference tools and the
account-info tool are modelled from the spec, their bodies being absent
from src/). -/
theorem C8_resolver_toolset :
    ToolName.get_user_preferences ∈ RESOLVER_TOOLS ∧
    ToolName.update_user_preferences ∈ RESOLVER_TOOLS ∧
    ToolName.get_ticket_info ∈ RESOLVER_TOOLS ∧
    ToolName.update_ticket_status ∈ RESOLVER_TOOLS ∧
    ToolName.add_ticket_message ∈ RESOLVER_TOOLS ∧
    ToolName.get_customer_ticket_history ∈ RESOLVER_TOOLS ∧
    ToolName.get_cultpass_user_info ∈ RESOLVER_TOOLS ∧
    ToolName.get_user_reservations ∈ RESOLVER_TOOLS ∧
    ToolName.get_experience_availability ∈ RESOLVER_TOOLS ∧
    (∀ t ∈ RESOLVER_TOOLS, t ∈ definedGatewayOps) := by
  decide

/-- A ticket/metadata pair for exercising the escalation pass. -/
def escTicketMeta : UdaTicketMeta :=
  { status := some "in_progress", main_issue_type := some "billing", tags := some "billing" }

/-- A one-ticket udahub store carrying `escTicketMeta`. -/
def escStore : UdaStore :=
  { users := []
  , tickets := [{ ticket_id := "T-2", user_id := "u-1", channel := "email", created_at := some "2024-03-01T00:00:00" }]
  , metas := [("T-2", escTicketMeta)]
  , messages := [] }

/-- Claim C9 is false on the code about the customer-facing role: the
escalation prompt instructs role='ai' for the customer-facing message, and
add_ticket_message recognizes only agent/user/system, normalizing 'ai' to
"agent" — so the customer-facing message is persisted under the agent role,
not an assistant-type role.  Evaluated on a concrete store: one escalation
pass persists roles system then agent. -/
theorem C9_counterexample :
    normalizeRole ESCALATION_CUSTOMER_ROLE = "agent" ∧
    (escalationPass escStore "T-2" "internal note" "help is coming" "m1" "m2").messages.map
      (fun m => m.role) = [some "system", some "agent"] := by
  exact ⟨by decide, by decide⟩

theorem findMeta_escalationPass (st : UdaStore) (tid note cust id1 id2 : String)
    (m : UdaTicketMeta) (h : findMeta st tid = some m) :
    findMeta (escalationPass st tid note cust id1 id2) tid =
      some (applyMetaUpdate m ESCALATION_STATUS "" "") := by
  unfold escalationPass
  exact findMeta_update _ tid _ _ _ m h

/-- Claim C9 (amended): in one pass the Escalation agent appends the
internal structured note with role system and marks the ticket escalated,
as claimed; the customer-facing message, however, is instructed with
role 'ai', which the gateway normalizes to "agent", so it is persisted
under the agent role rather than an assistant-type role. -/
theorem C9_escalation_pass (st : UdaStore) (tid note cust id1 id2 : String)
    (m : UdaTicketMeta) (h : findMeta st tid = some m) :
    (escalationPass st tid note cust id1 id2).messages =
      st.messages ++
        [ { message_id := id1, ticket_id := tid, role := some "system", content := note }
        , { message_id := id2, ticket_id := tid, role := some "agent", content := cust } ] ∧
    ∃ m', findMeta (escalationPass st tid note cust id1 id2) tid = some m' ∧
      m'.status = some "escalated" ∧ m'.main_issue_type = m.main_issue_type ∧
      m'.tags = m.tags := by
  have hr1 : normalizeRole ESCALATION_NOTE_ROLE = "system" := by decide
  have hr2 : normalizeRole ESCALATION_CUSTOMER_ROLE = "agent" := by decide
  constructor
  · unfold escalationPass
    rw [update_messages_frame]
    simp [add_ticket_message, hr1, hr2]
  · refine ⟨applyMetaUpdate m ESCALATION_STATUS "" "",
      findMeta_escalationPass st tid note cust id1 id2 m h, rfl, rfl, rfl⟩

/-- Witness for the amended C9 on the concrete escalation store. -/
theorem C9_witness :
    findMeta escStore "T-2" = some escTicketMeta ∧
    ((escalationPass escStore "T-2" "internal note" "help is coming" "m1" "m2").messages =
      [] ++
        [ { message_id := "m1", ticket_id := "T-2", role := some "system", content := "internal note" }
        , { message_id := "m2", ticket_id := "T-2", role := some "agent", content := "help is coming" } ] ∧
     ∃ m', findMeta (escalationPass escStore "T-2" "internal note" "help is coming" "m1" "m2") "T-2" =
        some m' ∧ m'.status = some "escalated" ∧
        m'.main_issue_type = escTicketMeta.main_issue_type ∧ m'.tags = escTicketMeta.tags) :=
  ⟨by decide, C9_escalation_pass escStore "T-2" "internal note" "help is coming" "m1" "m2"
      escTicketMeta (by decide)⟩

/-- Claim C10 (frame property of update_ticket_status): on an existing
ticket the status field is overwritten unconditionally with the given
string — the status argument is universally quantified, so no validation
against the documented valid set takes place — while the persisted
issue_type is unchanged when the issue_type argument is "" and the
persisted tags are unchanged when the tags argument is "". -/
theorem C10_update_frame (st : UdaStore) (tid status it tg : String) (m : UdaTicketMeta)
    (h : findMeta st tid = some m) :
    ∃ m', findMeta (update_ticket_status st tid status it tg).1 tid = some m' ∧
      m'.status = some status ∧
      (it = "" → m'.main_issue_type = m.main_issue_type) ∧
      (tg = "" → m'.tags = m.tags) := by
  refine ⟨applyMetaUpdate m status it tg, findMeta_update st tid status it tg m h, rfl, ?_, ?_⟩
  · intro hit
    simp [applyMetaUpdate, hit]
  · intro htg
    simp [applyMetaUpdate, htg]

/-- Witness for C10 on a concrete store with an out-of-set status string. -/
theorem C10_witness :
    findMeta tagStore "T-1" = some tagTicketMeta ∧
    (∃ m', findMeta (update_ticket_status tagStore "T-1" "totally-bogus" "" "").1 "T-1" =
        some m' ∧ m'.status = some "totally-bogus" ∧
        ("" = "" → m'.main_issue_type = tagTicketMeta.main_issue_type) ∧
        ("" = "" → m'.tags = tagTicketMeta.tags)) :=
  ⟨by decide, C10_update_frame tagStore "T-1" "totally-bogus" "" "" tagTicketMeta (by decide)⟩
